import Mathlib

/-!
# Verification of the VPS security monitor core

A shallow embedding, in Lean 4, of the check/remediation/rollback
orchestration engine of the VPS security monitor (`vps_security.py`,
`checks/base.py`, `remediation/rollback.py`, `remediation/permission_fix.py`,
`vps-security/remediation/base.py`, `vps-security/remediation/firewall_fix.py`,
`vps-security/remediation/ssh_fix.py`).

External effects are made explicit:
* shelled-out commands are modelled by a `script`, a list of
  (returncode, stdout, stderr) results consumed in order by
  `_execute_command`, together with a `trace` of the command strings that
  were actually executed;
* the filesystem is modelled by small association lists (path to mode,
  path to contents, or just the list of file names, depending on the
  component);
* timestamps, logging, and Slack notification are elided: no modelled
  behaviour depends on them.
-/

set_option autoImplicit false

namespace VpsSec

/-! ## String helpers

Python string primitives (`startswith`, `endswith`, `in`, `lower`,
`replace`, `sorted`) are modelled on `String.data` so that everything is
executable and provable by ordinary list induction.
-/

/-- List-level `startswith`: the first list is an initial segment of the second. -/
def lcStarts : List Char → List Char → Bool
  | [], _ => true
  | _ :: _, [] => false
  | a :: as, b :: bs => a == b && lcStarts as bs

/-- Python `s.startswith(p)`. -/
def strStarts (s p : String) : Bool := lcStarts p.data s.data

/-- Python `s.endswith(p)`. -/
def strEnds (s p : String) : Bool := lcStarts p.data.reverse s.data.reverse

/-- List-level substring occurrence test. -/
def lcHasSub (p : List Char) : List Char → Bool
  | [] => p.isEmpty
  | c :: rest => lcStarts p (c :: rest) || lcHasSub p rest

/-- Python `p in s` on strings. -/
def strHasSub (s p : String) : Bool := lcHasSub p.data s.data

/-- ASCII lower-casing of one character (Python `str.lower` on the ASCII
strings this program compares). -/
def charLower (c : Char) : Char :=
  if 'A' ≤ c ∧ c ≤ 'Z' then Char.ofNat (c.toNat + 32) else c

/-- Python `s.lower()`. -/
def strLower (s : String) : String := ⟨s.data.map charLower⟩

/-- Replace every occurrence of `pat` in `s` by `rep`, scanning left to
right (Python `str.replace`).  Structured with explicit fuel so that it is
structurally recursive and kernel-reducible. -/
def replaceAllAux (pat rep : List Char) : Nat → List Char → List Char
  | 0, s => s
  | _, [] => []
  | fuel + 1, c :: rest =>
    if lcStarts pat (c :: rest) && !pat.isEmpty then
      rep ++ replaceAllAux pat rep fuel ((c :: rest).drop pat.length)
    else
      c :: replaceAllAux pat rep fuel rest

/-- Python `s.replace(pat, rep)` (for the nonempty patterns used here). -/
def replaceAll (s pat rep : String) : String :=
  ⟨replaceAllAux pat.data rep.data s.data.length s.data⟩

/-- Lexicographic comparison on code points, as Python compares `str`. -/
def lcLe : List Char → List Char → Bool
  | [], _ => true
  | _ :: _, [] => false
  | a :: as, b :: bs =>
    if a.toNat < b.toNat then true
    else if b.toNat < a.toNat then false
    else lcLe as bs

/-- `a <= b` on strings, code-point lexicographic. -/
def strLe (a b : String) : Bool := lcLe a.data b.data

/-- Insert a string into an already sorted list. -/
def insertSorted (x : String) : List String → List String
  | [] => [x]
  | y :: ys => if strLe x y then x :: y :: ys else y :: insertSorted x ys

/-- Python `sorted` on a list of strings (insertion sort; ascending). -/
def sortStrs : List String → List String
  | [] => []
  | x :: xs => insertSorted x (sortStrs xs)

theorem mem_insertSorted {x a : String} : ∀ {l : List String}, a ∈ insertSorted x l ↔ a = x ∨ a ∈ l := by
  intro l
  induction l with
  | nil => simp [insertSorted]
  | cons y ys ih =>
    by_cases h : strLe x y = true
    · simp [insertSorted, h]
    · simp only [insertSorted, if_neg h, List.mem_cons, ih]
      tauto

theorem mem_sortStrs {a : String} : ∀ {l : List String}, a ∈ sortStrs l ↔ a ∈ l := by
  intro l
  induction l with
  | nil => simp [sortStrs]
  | cons x xs ih => simp [sortStrs, mem_insertSorted, ih]

theorem strDataAppend (a b : String) : (a ++ b).data = a.data ++ b.data := by
  cases a; cases b; rfl

/-- If a nonempty list is a `lcStarts`-initial segment of `m`, then `m`
begins with its head. -/
theorem lcStarts_head {a : Char} {l m : List Char} (h : lcStarts (a :: l) m = true) :
    ∃ m', m = a :: m' := by
  cases m with
  | nil => simp [lcStarts] at h
  | cons b bs =>
    refine ⟨bs, ?_⟩
    simp only [lcStarts, Bool.and_eq_true, beq_iff_eq] at h
    rw [h.1]

/-- Two `strStarts`-prefixes of one string agree on their first character. -/
theorem strStarts_head_eq {s p q : String} {a b : Char} {pl ql : List Char}
    (hp : p.data = a :: pl) (hq : q.data = b :: ql)
    (h1 : strStarts s p = true) (h2 : strStarts s q = true) : a = b := by
  unfold strStarts at h1 h2
  rw [hp] at h1
  rw [hq] at h2
  obtain ⟨m1, hm1⟩ := lcStarts_head h1
  obtain ⟨m2, hm2⟩ := lcStarts_head h2
  rw [hm1] at hm2
  exact (List.cons.injEq _ _ _ _ ▸ hm2).1

/-! ## Data model (`checks/base.py`, `vps-security/remediation/base.py`,
`remediation/rollback.py`) -/

/-- `Severity` from `checks/base.py`, with the ordering OK < INFO < WARNING
< CRITICAL used by the severity model. -/
inductive Severity where
  | OK
  | INFO
  | WARNING
  | CRITICAL
deriving DecidableEq, Repr

/-- Rank realising the total order OK < INFO < WARNING < CRITICAL. -/
def sevRank : Severity → Nat
  | .OK => 0
  | .INFO => 1
  | .WARNING => 2
  | .CRITICAL => 3

/-- Structured payload (`raw_data` dict) used by the remediations: the
`files` key for the permission fix and the `missing_ports` key for the
firewall fix. -/
structure RawData where
  files : List String := []
  missing_ports : List Nat := []
deriving DecidableEq, Repr

/-- `CheckResult` from `checks/base.py`. -/
structure CheckResult where
  check_name : String
  severity : Severity
  message : String
  details : List String := []
  auto_fixable : Bool := false
  fix_action : Option String := none
  raw_data : Option RawData := none
deriving DecidableEq, Repr

/-- `RemediationResult` from `vps-security/remediation/base.py`. -/
structure RemediationResult where
  success : Bool
  action : String
  details : List String
  rollback_id : Option String := none
  error : Option String := none
deriving DecidableEq, Repr

/-- `_success` from `BaseRemediation`. -/
def mkSuccess (action : String) (details : List String)
    (rollbackId : Option String := none) : RemediationResult :=
  { success := true, action := action, details := details, rollback_id := rollbackId }

/-- `_failure` from `BaseRemediation`. -/
def mkFailure (action : String) (error : String)
    (details : List String := []) : RemediationResult :=
  { success := false, action := action, details := details, error := some error }

/-- A change dictionary appended by `RollbackManager`
(`remediation/rollback.py`): the `type` discriminator together with the
type-specific fields.  Timestamps are elided. -/
inductive Change where
  | file (path : String) (backupFile : Option String)
  | permission (path : String) (originalMode : String) (newMode : String)
  | ufw (action : String) (backupFile : String)
  | command (cmd : String) (description : String)
deriving DecidableEq, Repr

/-- One result of `_execute_command` in the two `base.py` files:
returncode, stdout, stderr.  Timeouts and exceptions appear as
returncode `-1`, exactly as in the source. -/
structure CmdResult where
  rc : Int
  out : String := ""
  err : String := ""
deriving DecidableEq, Repr

/-! ## Scan orchestrator: `run_checks` (`vps_security.py`, lines 110-149)

A check is its name together with its behaviour: either the
`CheckResult` it returns, or the error text of the exception it raises
(`Except.error`).  `run_checks` iterates over all checks, appending one
result per check; a raised exception is converted in place into a
WARNING `CheckResult` carrying the error text. -/

/-- One registered check: name and behaviour. -/
structure CheckSpec where
  name : String
  behavior : Except String CheckResult
deriving Repr

/-- The WARNING finding manufactured in the `except` branch of
`run_checks`. -/
def checkFailureResult (name errText : String) : CheckResult :=
  { check_name := name
    severity := .WARNING
    message := "Check failed with error: " ++ errText
    details := [errText]
    auto_fixable := false }

/-- `run_checks`: every check runs; a raising check contributes the
WARNING finding instead of aborting the loop. -/
def runChecks (checks : List CheckSpec) : List CheckResult :=
  checks.map fun c =>
    match c.behavior with
    | .ok r => r
    | .error e => checkFailureResult c.name e

/-! ## Remediation dispatcher: `process_remediation` (`vps_security.py`,
lines 152-226) and the exit-status computation in `main` (lines 324-357) -/

/-- The `remediation` section of the configuration consumed by
`process_remediation`: the `enabled` flag and the `auto_fix` allow-list. -/
structure RemConfig where
  enabled : Bool
  autoFix : List String
deriving Repr

/-- The `action_type` computation of `process_remediation`: maps a
`fix_action` string to the coarser action class checked against the
allow-list. -/
def actionTypeOf (fa : String) : Option String :=
  if strHasSub (strLower fa) "firewall" ∨ fa = "enable_ufw" ∨ fa = "add_missing_rules" then
    some (if strHasSub fa "enable" then "firewall_disabled" else "firewall_missing_rules")
  else if strHasSub (strLower fa) "permission" then
    some "file_permissions"
  else
    none

/-- The keys of `remediation_map`: fix actions with a registered handler
class. -/
def registeredActions : List String :=
  ["enable_ufw", "add_missing_rules", "fix_env_permissions"]

/-- Python truthiness of `result.fix_action`: present and nonempty. -/
def fixActionTruthy (r : CheckResult) : Bool :=
  match r.fix_action with
  | some s => s ≠ ""
  | none => false

/-- `action_type in auto_fix_actions or result.fix_action in
auto_fix_actions`. -/
def allowListed (cfg : RemConfig) (fa : String) : Bool :=
  (match actionTypeOf fa with
   | some t => t ∈ cfg.autoFix
   | none => false) || fa ∈ cfg.autoFix

/-- Where one result goes inside the `process_remediation` loop. -/
inductive Route where
  | skip
  | fixed (fr : RemediationResult)
  | alert
deriving DecidableEq, Repr

/-- The branch taken by the `process_remediation` loop body for one
result.  `oracle` is the outcome of `remediation.execute(result)`:
either a `RemediationResult` or a raised exception (`Except.error`),
which the loop catches and turns into an alert. -/
def routeOf (cfg : RemConfig) (oracle : CheckResult → Except String RemediationResult)
    (r : CheckResult) : Route :=
  if r.severity = .OK then .skip
  else if r.auto_fixable && fixActionTruthy r then
    let fa := r.fix_action.getD ""
    if allowListed cfg fa then
      if fa ∈ registeredActions then
        match oracle r with
        | .ok fr => if fr.success then .fixed fr else .alert
        | .error _ => .alert
      else .alert
    else .alert
  else .alert

/-- The `process_remediation` accumulation loop, written as structural
recursion producing the same ordered `(auto_fixed, alerts)` lists as the
append-in-a-for-loop of the source. -/
def processLoop (cfg : RemConfig) (oracle : CheckResult → Except String RemediationResult) :
    List CheckResult → List (CheckResult × RemediationResult) × List CheckResult
  | [] => ([], [])
  | r :: rest =>
    let acc := processLoop cfg oracle rest
    match routeOf cfg oracle r with
    | .skip => acc
    | .fixed fr => ((r, fr) :: acc.1, acc.2)
    | .alert => (acc.1, r :: acc.2)

/-- `process_remediation`: when auto-remediation is disabled every
non-OK result is an alert; otherwise the loop above dispatches each
result. -/
def processRemediation (cfg : RemConfig) (oracle : CheckResult → Except String RemediationResult)
    (results : List CheckResult) :
    List (CheckResult × RemediationResult) × List CheckResult :=
  if !cfg.enabled then
    ([], results.filter fun r => decide (r.severity ≠ .OK))
  else
    processLoop cfg oracle results

/-- The exit-status computation at the end of `main`
(`vps_security.py`, lines 324-357): counts of CRITICAL and WARNING
alerts decide the code 2 / 1 / 0. -/
def mainExitCode (alerts : List CheckResult) : Nat :=
  let criticalCount := (alerts.filter fun r => decide (r.severity = .CRITICAL)).length
  let warningCount := (alerts.filter fun r => decide (r.severity = .WARNING)).length
  if criticalCount > 0 then 2
  else if warningCount > 0 then 1
  else 0

/-- "The remediation of `r` succeeded in this run": remediation is
enabled and the dispatcher routed `r` to the auto-fixed list. -/
def successfullyFixed (cfg : RemConfig) (oracle : CheckResult → Except String RemediationResult)
    (r : CheckResult) : Prop :=
  cfg.enabled = true ∧ ∃ fr, routeOf cfg oracle r = .fixed fr

/-! ## Guarded-apply state

`Sys` carries the external world visible to the firewall and SSH
remediations: the pending command results (`script`, consumed in order
by `_execute_command`), the `trace` of command strings actually
executed, the rollback-manager change journal, the sshd configuration
file, and the backup snapshots written so far. -/

structure Sys where
  script : List CmdResult := []
  trace : List String := []
  changes : List Change := []
  sshdExists : Bool := true
  sshdContent : String := ""
  backups : List String := []
deriving Repr

/-- `_execute_command`: consumes the next scripted result and records
the command string in the trace.  An exhausted script models the
exception / timeout path of the source, which yields returncode `-1`. -/
def execCmd (cmd : String) (s : Sys) : CmdResult × Sys :=
  match s.script with
  | [] => ({ rc := -1 }, { s with trace := s.trace ++ [cmd] })
  | r :: rest => (r, { s with script := rest, trace := s.trace ++ [cmd] })

/-- The returncode the `i`-th `_execute_command` invocation will see,
given the initial script (`-1` once the script is exhausted). -/
def scriptRc (script : List CmdResult) (i : Nat) : Int :=
  (((script.drop i).head?).map CmdResult.rc).getD (-1)

/-- File name used by `RollbackManager.record_ufw_change` for the saved
rule listing: `ufw_backup_<session_id>.txt`. -/
def ufwBackupFileName (sessionId : String) : String :=
  "ufw_backup_" ++ sessionId ++ ".txt"

/-- `RollbackManager.record_ufw_change`: writes the prior rule listing
to the ufw backup file and appends a `ufw` change record. -/
def recordUfwChange (action rulesBefore sessionId : String) (s : Sys) : Sys :=
  { s with
    backups := s.backups ++ [rulesBefore]
    changes := s.changes ++ [Change.ufw action (ufwBackupFileName sessionId)] }

/-- `RollbackManager.record_command`: appends a `command` change record. -/
def recordCommand (cmd description : String) (s : Sys) : Sys :=
  { s with changes := s.changes ++ [Change.command cmd description] }

/-! ## Firewall activation: `FirewallRemediation._enable_ufw`
(`vps-security/remediation/firewall_fix.py`, lines 33-100) -/

/-- The port loop of `_enable_ufw`: adds an allow-rule for every
configured port other than 22, logging (not failing) on a non-zero
returncode. -/
def allowPortsLoop (ports : List Nat) (acc : List String × Sys) : List String × Sys :=
  ports.foldl
    (fun acc port =>
      if port = 22 then acc
      else
        let (r, s) := execCmd ("ufw allow " ++ toString port ++ "/tcp") acc.2
        if r.rc = 0 then (acc.1 ++ ["Allowed port " ++ toString port ++ "/tcp"], s)
        else (acc.1, s))
    acc

/-- `_enable_ufw`: backup rules, allow SSH (aborting on failure), allow
the configured ports, enable the filter, and verify it reports active. -/
def enableUfw (allowedPorts : List Nat) (sessionId : String) (s0 : Sys) :
    RemediationResult × Sys :=
  let (r1, s1) := execCmd "ufw status numbered" s0
  let s1 := recordUfwChange "enable_ufw" r1.out sessionId s1
  let (r2, s2) := execCmd "ufw allow 22/tcp" s1
  if r2.rc ≠ 0 then
    (mkFailure "Enable UFW" ("Failed to allow SSH port 22: " ++ r2.err)
      ["ABORTED: Cannot enable UFW without SSH access guaranteed"], s2)
  else
    let (acts1, s3) := allowPortsLoop allowedPorts (["Allowed SSH port 22/tcp"], s2)
    let (r4, s4) := execCmd "ufw --force enable" s3
    if r4.rc ≠ 0 then
      (mkFailure "Enable UFW" ("Failed to enable UFW: " ++ r4.err) acts1, s4)
    else
      let acts2 := acts1 ++ ["Enabled UFW firewall"]
      let (r5, s5) := execCmd "ufw status" s4
      if strHasSub r5.out "Status: active" = false then
        (mkFailure "Enable UFW" "UFW reports inactive after enable command" acts2, s5)
      else
        let acts3 := acts2 ++ ["Verified UFW is active"]
        let s6 := recordCommand "ufw --force enable" "Enabled UFW firewall" s5
        (mkSuccess "Enabled UFW firewall" acts3 (some sessionId), s6)

/-! ## SSH configuration rewrite: `SSHRemediation.execute`
(`vps-security/remediation/ssh_fix.py`, lines 21-107)

The per-setting text rewrite `_fix_setting` is regex-based string
surgery; it is taken as a parameter `fixSetting : content → setting →
value → (new content, was_fixed)`, so every theorem below holds for the
actual rewrite function.  `RollbackManager.backup_file`, called by
`execute`, is not under `src/`; it is modelled from the spec: section
4.4 step (1), snapshot the full original configuration text as the undo
backup and hand back a backup identifier.  Neither abstraction decides
the control flow around validation, restart, restore, and reporting,
which is translated verbatim. -/

/-- `SECURE_SETTINGS`, in its Python insertion order. -/
def SECURE_SETTINGS : List (String × String) :=
  [("PermitRootLogin", "prohibit-password"),
   ("PasswordAuthentication", "no"),
   ("PubkeyAuthentication", "yes"),
   ("PermitEmptyPasswords", "no")]

/-- The `for setting, secure_value in SECURE_SETTINGS.items()` loop:
threads the content through `fixSetting` and collects
`"<setting> = <value>"` for every setting that was fixed. -/
def applySettings (fixSetting : String → String → String → String × Bool)
    (content : String) : String × List String :=
  SECURE_SETTINGS.foldl
    (fun acc sv =>
      let (nc, wasFixed) := fixSetting acc.1 sv.1 sv.2
      (nc, if wasFixed then acc.2 ++ [sv.1 ++ " = " ++ sv.2] else acc.2))
    (content, [])

/-- First restart command of `_restart_ssh`. -/
def restartCmd1 : String := "systemctl restart sshd || systemctl restart ssh"

/-- Fallback restart command of `_restart_ssh`. -/
def restartCmd2 : String := "service sshd restart || service ssh restart"

/-- `_restart_ssh`: systemctl first, `service` as fallback; reports
whether a restart succeeded together with a message. -/
def restartSSH (s : Sys) : (Bool × String) × Sys :=
  let (r1, s1) := execCmd restartCmd1 s
  if r1.rc = 0 then ((true, "SSH restarted via systemctl"), s1)
  else
    let (r2, s2) := execCmd restartCmd2 s1
    if r2.rc = 0 then ((true, "SSH restarted via service"), s2)
    else ((false, if r2.err = "" then "Failed to restart SSH" else r2.err), s2)

/-- The configured sshd configuration path (default in the source). -/
def sshConfigPath : String := "/etc/ssh/sshd_config"

/-- `SSHRemediation.execute`. -/
def sshExecute (fixSetting : String → String → String → String × Bool)
    (backupId : String) (s : Sys) : RemediationResult × Sys :=
  if s.sshdExists = false then
    (mkFailure "Fix SSH config" ("SSH config not found: " ++ sshConfigPath), s)
  else
    let originalContent := s.sshdContent
    let s := { s with backups := s.backups ++ [originalContent] }
    let (newContent, fixedSettings) := applySettings fixSetting originalContent
    if fixedSettings = [] then
      (mkSuccess "SSH config check" ["SSH configuration already secure"] (some backupId), s)
    else
      let s := { s with sshdContent := newContent }
      let (rv, s) := execCmd "sshd -t" s
      if rv.rc ≠ 0 then
        let s := { s with sshdContent := originalContent }
        (mkFailure "Fix SSH config"
          ("Config validation failed, rolled back: " ++ rv.err) fixedSettings, s)
      else
        let (res1, s) := restartSSH s
        if res1.1 = false then
          let s := { s with sshdContent := originalContent }
          let (_, s) := restartSSH s
          (mkFailure "Fix SSH config"
            ("SSH restart failed, rolled back: " ++ res1.2) fixedSettings, s)
        else
          (mkSuccess ("Fixed SSH security (" ++ toString fixedSettings.length ++ " settings)")
            (fixedSettings ++ ["", "SSH service restarted successfully"]) (some backupId), s)

/-! ## Permission fix: `PermissionRemediation._fix_env_permissions`
(`remediation/permission_fix.py`, lines 33-96)

The filesystem is a map from path to the three-digit octal mode string
the source derives with `oct(S_IMODE(...))[-3:]`; a missing entry is a
nonexistent file.  The modelled failure mode is the `os.path.exists`
check of the source (`"File not found"`); `chmod` errors
(PermissionError and the catch-all) feed the same `errors` list in the
source and are not separately modelled. -/

/-- Filesystem for the permission fix: path to current mode string. -/
structure PermFS where
  modes : List (String × String) := []
deriving DecidableEq, Repr

/-- Current mode of a path, `none` when the file does not exist. -/
def PermFS.modeOf (fs : PermFS) (p : String) : Option String :=
  (fs.modes.find? fun e => e.1 = p).map Prod.snd

/-- `os.chmod(p, 0o600)` on an existing file. -/
def PermFS.chmod600 (fs : PermFS) (p : String) : PermFS :=
  ⟨fs.modes.map fun e => if e.1 = p then (e.1, "600") else e⟩

/-- `RollbackManager.record_permission_change`: appends a `permission`
change record. -/
def recordPermissionChange (path originalMode newMode : String)
    (changes : List Change) : List Change :=
  changes ++ [Change.permission path originalMode newMode]

/-- One iteration of the `for filepath in files` loop of
`_fix_env_permissions`: accumulates `(actions_taken, errors)` while
updating the filesystem and the change journal. -/
def fixEnvStep (acc : List String × List String × PermFS × List Change) (f : String) :
    List String × List String × PermFS × List Change :=
  let (acts, errs, fs, chs) := acc
  match fs.modeOf f with
  | none => (acts, errs ++ ["File not found: " ++ f], fs, chs)
  | some currentModeStr =>
    let chs := recordPermissionChange f currentModeStr "600" chs
    let fs := fs.chmod600 f
    (acts ++ [f ++ ": " ++ currentModeStr ++ " -> 600"], errs, fs, chs)

/-- `_fix_env_permissions`. -/
def fixEnvPermissions (files : List String) (sessionId : String)
    (fs : PermFS) (changes : List Change) :
    RemediationResult × PermFS × List Change :=
  if files = [] then
    (mkSuccess "Fix .env permissions" ["No files to fix"], fs, changes)
  else
    let (acts, errs, fs1, chs1) := files.foldl fixEnvStep ([], [], fs, changes)
    if errs ≠ [] ∧ acts = [] then
      (mkFailure "Fix .env permissions" (String.intercalate "; " errs) [], fs1, chs1)
    else if errs ≠ [] then
      ({ success := true
         action := "Fixed " ++ toString acts.length ++ " file(s), " ++
           toString errs.length ++ " error(s)"
         details := acts ++ errs.map (fun e => "ERRORS: " ++ e)
         rollback_id := some sessionId }, fs1, chs1)
    else
      (mkSuccess ("Fixed permissions on " ++ toString acts.length ++ " file(s)")
        acts (some sessionId), fs1, chs1)

/-! ## Rollback journal retention:
`RollbackManager._cleanup_old_backups` (`remediation/rollback.py`,
lines 35-59)

The backup directory is modelled as the list of file names it contains.
Session files are `session_<id>.json`; `record_file_change` writes
artifacts named `backup_<id>_<basename>`; `record_ufw_change` writes
artifacts named `ufw_backup_<id>.txt` (see `ufwBackupFileName`). -/

/-- `f.startswith("session_") and f.endswith(".json")`. -/
def isSessionFile (f : String) : Bool :=
  strStarts f "session_" && strEnds f ".json"

/-- `oldest.replace("session_", "").replace(".json", "")`. -/
def sessionIdOf (f : String) : String :=
  replaceAll (replaceAll f "session_" "") ".json" ""

/-- The artifact prefix removed for an evicted session:
`backup_<session_id>_`. -/
def backupArtifactPre (sessionId : String) : String :=
  "backup_" ++ sessionId ++ "_"

/-- The `while len(sessions) > max_backups` eviction loop: pops the
oldest session, removes its session file, and removes every file whose
name starts with `backup_<id>_`. -/
def evictLoop (maxBackups : Nat) : List String → List String → List String
  | [], files => files
  | oldest :: rest, files =>
    if rest.length + 1 > maxBackups then
      evictLoop maxBackups rest
        (files.filter fun f =>
          !(f == oldest || strStarts f (backupArtifactPre (sessionIdOf oldest))))
    else files

/-- `_cleanup_old_backups`: sort the session files ascending (Python
`sorted`), then evict from the oldest while over the limit. -/
def cleanupOldBackups (files : List String) (maxBackups : Nat) : List String :=
  evictLoop maxBackups (sortStrs (files.filter isSessionFile)) files

/-- The session files the cleanup evicts: the oldest
`count - maxBackups` in sorted order. -/
def evictedSessions (files : List String) (maxBackups : Nat) : List String :=
  (sortStrs (files.filter isSessionFile)).take
    ((sortStrs (files.filter isSessionFile)).length - maxBackups)

/-! ## Session rollback: `RollbackManager.rollback_session`
(`remediation/rollback.py`, lines 179-226)

The filesystem here maps a path to its contents and numeric mode.  The
session store maps a session identifier to its recorded change list
(the parsed `session_<id>.json`). -/

/-- Filesystem for rollback: path to (contents, mode). -/
structure FS where
  entries : List (String × String × Nat) := []
deriving DecidableEq, Repr

/-- Look up a path. -/
def FS.find (fs : FS) (p : String) : Option (String × Nat) :=
  (fs.entries.find? fun e => e.1 = p).map Prod.snd

/-- `os.chmod` on an existing path (the caller checks existence). -/
def FS.setMode (fs : FS) (p : String) (m : Nat) : FS :=
  ⟨fs.entries.map fun e => if e.1 = p then (e.1, e.2.1, m) else e⟩

/-- `shutil.copy src dst`: copies contents and permission bits of an
existing `src` onto `dst`, creating `dst` if needed. -/
def FS.copy (fs : FS) (src dst : String) : FS :=
  match fs.find src with
  | none => fs
  | some (c, m) =>
    if (fs.find dst).isSome then
      ⟨fs.entries.map fun e => if e.1 = dst then (e.1, c, m) else e⟩
    else
      ⟨fs.entries ++ [(dst, c, m)]⟩

/-- `int(s, 8)`: parse a nonempty octal numeral, `none` on anything
else (the source catches the raised `ValueError` as a rollback error). -/
def parseOctal (s : String) : Option Nat :=
  if s.data = [] then none
  else
    s.data.foldl
      (fun acc c =>
        match acc with
        | none => none
        | some n => if '0' ≤ c ∧ c ≤ '7' then some (n * 8 + (c.toNat - 48)) else none)
      (some 0)

/-- The note appended for a `ufw` record. -/
def ufwManualNote : String := "UFW change logged - manual review recommended"

/-- One iteration of the `for change in reversed(changes)` loop:
threads the filesystem and the `(rolled_back, errors)` accumulators. -/
def rollbackStep (acc : FS × List String × List String) (ch : Change) :
    FS × List String × List String :=
  let (fs, rb, errs) := acc
  match ch with
  | .permission p om _ =>
    match parseOctal om with
    | some m =>
      if (fs.find p).isSome then
        (fs.setMode p m, rb ++ ["Restored permissions on " ++ p], errs)
      else
        (fs, rb, errs ++ ["Failed to rollback permission change on " ++ p])
    | none => (fs, rb, errs ++ ["Failed to rollback permission change on " ++ p])
  | .file p ob =>
    match ob with
    | some b =>
      if (fs.find b).isSome then
        (fs.copy b p, rb ++ ["Restored file " ++ p], errs)
      else
        (fs, rb, errs)
    | none => (fs, rb, errs)
  | .ufw _ _ => (fs, rb ++ [ufwManualNote], errs)
  | .command _ _ => (fs, rb, errs)

/-- The result dictionary of `rollback_session`. -/
structure RollbackOutput where
  success : Bool
  rolled_back : List String := []
  errors : List String := []
  error : Option String := none
deriving DecidableEq, Repr

/-- The parsed session store: session identifier to recorded changes. -/
def SessionStore := List (String × List Change)

/-- `rollback_session`: not-found check, then the reverse-order replay,
collecting errors without stopping; success iff no errors. -/
def rollbackSession (store : SessionStore) (fs : FS) (sessionId : String) :
    RollbackOutput × FS :=
  match (store.find? fun e => e.1 = sessionId).map Prod.snd with
  | none =>
    ({ success := false, error := some ("Session " ++ sessionId ++ " not found") }, fs)
  | some changes =>
    let (fs1, rb, errs) := changes.reverse.foldl rollbackStep (fs, [], [])
    ({ success := errs = [], rolled_back := rb, errors := errs }, fs1)

/-! ## Command surface: `--rollback` and `--list-sessions`
(`vps_security.py`, lines 274-301; `remediation/rollback.py`, lines
156-177) -/

/-- The info record assembled per session by `list_sessions`. -/
structure SessionMeta where
  session_id : Option String
  created : Option String
  changes_count : Nat
deriving DecidableEq, Repr

/-- The `for f in sorted(listdir, reverse=True)` loop of
`list_sessions`.  `parse` is the JSON load of one session file; a
`none` models a raised exception, which the enclosing `try` catches,
ending the loop with the sessions collected so far. -/
def listSessionsLoop (parse : String → Option SessionMeta) :
    List String → List SessionMeta
  | [] => []
  | f :: rest =>
    if isSessionFile f then
      match parse f with
      | some meta => meta :: listSessionsLoop parse rest
      | none => []
    else
      listSessionsLoop parse rest

/-- `list_sessions`: newest-first iteration over the directory. -/
def listSessions (parse : String → Option SessionMeta) (dirFiles : List String) :
    List SessionMeta :=
  listSessionsLoop parse (sortStrs dirFiles).reverse

/-- The `--rollback` branch of `main`: `sys.exit(0 if result.success
else 1)`. -/
def mainRollbackExit (store : SessionStore) (fs : FS) (sessionId : String) : Nat :=
  if (rollbackSession store fs sessionId).1.success then 0 else 1

/-- The `--list-sessions` branch of `main`: print the listing, then
`sys.exit(0)` unconditionally. -/
def mainListSessionsExit (parse : String → Option SessionMeta)
    (dirFiles : List String) : Nat :=
  let _ := listSessions parse dirFiles
  0

/-! ## Claims -/

/-- Claim C5: a check that raises during execution is converted by the
orchestrator into a WARNING finding whose message and details carry the
error text, and every other check still contributes its result at its
own position — the scan never aborts early and always yields one result
per check. -/
theorem C5_check_failure_isolation (checks : List CheckSpec) :
    (runChecks checks).length = checks.length ∧
    ∀ (i : Nat) (c : CheckSpec), checks[i]? = some c →
      (∀ e, c.behavior = .error e →
        (runChecks checks)[i]? = some
          { check_name := c.name
            severity := .WARNING
            message := "Check failed with error: " ++ e
            details := [e]
            auto_fixable := false }) ∧
      (∀ r, c.behavior = .ok r → (runChecks checks)[i]? = some r) := by
  constructor
  · simp [runChecks]
  · intro i c hc
    constructor
    · intro e he
      simp [runChecks, List.getElem?_map, hc, he, checkFailureResult]
    · intro r hr
      simp [runChecks, List.getElem?_map, hc, hr]

/-- Witness for C5 at a concrete check list: one raising check and one
normal check, both reported at their positions. -/
theorem C5_check_failure_isolation_witness :
    (runChecks
      [⟨"Firewall", .error "boom"⟩,
       ⟨"SSH", .ok { check_name := "SSH", severity := .OK, message := "fine" }⟩]).length = 2 ∧
    (runChecks
      [⟨"Firewall", .error "boom"⟩,
       ⟨"SSH", .ok { check_name := "SSH", severity := .OK, message := "fine" }⟩])[0]? =
      some
        { check_name := "Firewall"
          severity := .WARNING
          message := "Check failed with error: " ++ "boom"
          details := ["boom"]
          auto_fixable := false } ∧
    (runChecks
      [⟨"Firewall", .error "boom"⟩,
       ⟨"SSH", .ok { check_name := "SSH", severity := .OK, message := "fine" }⟩])[1]? =
      some { check_name := "SSH", severity := .OK, message := "fine" } := by
  refine ⟨(C5_check_failure_isolation _).1, ?_, ?_⟩
  · exact ((C5_check_failure_isolation
      [⟨"Firewall", .error "boom"⟩,
       ⟨"SSH", .ok { check_name := "SSH", severity := .OK, message := "fine" }⟩]).2
      0 ⟨"Firewall", .error "boom"⟩ rfl).1 "boom" rfl
  · exact ((C5_check_failure_isolation
      [⟨"Firewall", .error "boom"⟩,
       ⟨"SSH", .ok { check_name := "SSH", severity := .OK, message := "fine" }⟩]).2
      1 ⟨"SSH", .ok { check_name := "SSH", severity := .OK, message := "fine" }⟩ rfl).2 _ rfl

/-- Claim C1: in `_enable_ufw`, if the step that allows the
management/SSH port 22 returns a non-zero code, the handler returns a
failure outcome whose details state the abort, and the command that
activates the filter (`ufw --force enable`) is never executed, so the
filter is left inactive. -/
theorem C1_firewall_ssh_guard (script : List CmdResult) (ports : List Nat) (sid : String)
    (h : scriptRc script 1 ≠ 0) :
    (enableUfw ports sid { script := script }).1.success = false ∧
    (enableUfw ports sid { script := script }).1.details =
      ["ABORTED: Cannot enable UFW without SSH access guaranteed"] ∧
    "ufw --force enable" ∉ (enableUfw ports sid { script := script }).2.trace := by
  match script with
  | [] =>
    refine ⟨rfl, rfl, ?_⟩
    have ht : (enableUfw ports sid { script := ([] : List CmdResult) }).2.trace =
        ["ufw status numbered", "ufw allow 22/tcp"] := rfl
    rw [ht]
    decide
  | [c1] =>
    refine ⟨rfl, rfl, ?_⟩
    have ht : (enableUfw ports sid { script := [c1] }).2.trace =
        ["ufw status numbered", "ufw allow 22/tcp"] := rfl
    rw [ht]
    decide
  | c1 :: c2 :: rest =>
    have h2 : c2.rc ≠ 0 := by simpa [scriptRc] using h
    simp only [enableUfw, execCmd, recordUfwChange, recordCommand, if_pos h2]
    refine ⟨rfl, rfl, ?_⟩
    simp only [List.nil_append, List.singleton_append]
    decide

/-- Witness for C1: a concrete script whose second command (the allow
rule for port 22) fails. -/
theorem C1_firewall_ssh_guard_witness :
    scriptRc [⟨0, "rules", ""⟩, ⟨1, "", "denied"⟩] 1 ≠ 0 ∧
    (enableUfw [22, 443] "S1"
      { script := [⟨0, "rules", ""⟩, ⟨1, "", "denied"⟩] }).1.success = false ∧
    (enableUfw [22, 443] "S1"
      { script := [⟨0, "rules", ""⟩, ⟨1, "", "denied"⟩] }).1.details =
      ["ABORTED: Cannot enable UFW without SSH access guaranteed"] ∧
    "ufw --force enable" ∉ (enableUfw [22, 443] "S1"
      { script := [⟨0, "rules", ""⟩, ⟨1, "", "denied"⟩] }).2.trace := by
  refine ⟨by decide, ?_⟩
  exact C1_firewall_ssh_guard [⟨0, "rules", ""⟩, ⟨1, "", "denied"⟩] [22, 443] "S1" (by decide)

theorem execCmd_trace (cmd : String) (s : Sys) :
    (execCmd cmd s).2.trace = s.trace ++ [cmd] := by
  cases hs : s.script <;> simp [execCmd, hs]

theorem execCmd_sshdContent (cmd : String) (s : Sys) :
    (execCmd cmd s).2.sshdContent = s.sshdContent := by
  cases hs : s.script <;> simp [execCmd, hs]

theorem restartSSH_sshdContent (s : Sys) :
    (restartSSH s).2.sshdContent = s.sshdContent := by
  rcases hs : s.script with _ | ⟨r1, rest⟩
  · by_cases h : (-1 : Int) = 0 <;> simp [restartSSH, execCmd, hs, h]
  · by_cases h1 : r1.rc = 0
    · simp [restartSSH, execCmd, hs, h1]
    · rcases hrest : rest with _ | ⟨r2, rest2⟩ <;>
        by_cases h2 : (-1 : Int) = 0 <;>
        simp [restartSSH, execCmd, hs, h1, hrest] <;> split <;> simp

theorem restartSSH_trace (s : Sys) : ∃ ext : List String,
    (restartSSH s).2.trace = s.trace ++ restartCmd1 :: ext ∧ restartCmd1 ∉ ext := by
  rcases hs : s.script with _ | ⟨r1, rest⟩
  · refine ⟨[restartCmd2], by simp [restartSSH, execCmd, hs], by decide⟩
  · by_cases h1 : r1.rc = 0
    · exact ⟨[], by simp [restartSSH, execCmd, hs, h1], by simp⟩
    · refine ⟨[restartCmd2], ?_, by decide⟩
      rcases hrest : rest with _ | ⟨r2, rest2⟩
      · simp [restartSSH, execCmd, hs, h1, hrest]
      · simp only [restartSSH, execCmd, hs, hrest, h1]
        by_cases h2 : r2.rc = 0 <;> simp [h1, h2]

/-- Claim C3: in `SSHRemediation.execute`, if the syntax validator
(`sshd -t`) fails after the modified configuration was written, the
original text is restored to the file, a failure outcome is returned,
and neither restart command is ever executed. -/
theorem C3_ssh_validation_guard (fix : String → String → String → String × Bool)
    (bid content : String) (script : List CmdResult)
    (hfix : (applySettings fix content).2 ≠ [])
    (hrc : scriptRc script 0 ≠ 0) :
    (sshExecute fix bid { script := script, sshdContent := content }).1.success = false ∧
    (sshExecute fix bid { script := script, sshdContent := content }).2.sshdContent = content ∧
    restartCmd1 ∉ (sshExecute fix bid { script := script, sshdContent := content }).2.trace ∧
    restartCmd2 ∉ (sshExecute fix bid { script := script, sshdContent := content }).2.trace := by
  rcases hA : applySettings fix content with ⟨nc, fsL⟩
  have hfsL : fsL ≠ [] := by rw [hA] at hfix; exact hfix
  match script, hrc with
  | [], _ =>
    simp [sshExecute, execCmd, hA, hfsL, mkFailure, restartCmd1, restartCmd2]
  | c0 :: rest, hrc =>
    have h0 : c0.rc ≠ 0 := by simpa [scriptRc] using hrc
    simp [sshExecute, execCmd, hA, hfsL, h0, mkFailure, restartCmd1, restartCmd2]

/-- Witness for C3: a rewrite function that always reports a fix, and a
script whose first command (the validator) fails. -/
theorem C3_ssh_validation_guard_witness :
    (applySettings (fun c _ _ => (c, true)) "cfg").2 ≠ [] ∧
    scriptRc [⟨1, "", "bad syntax"⟩] 0 ≠ 0 ∧
    (sshExecute (fun c _ _ => (c, true)) "B1"
      { script := [⟨1, "", "bad syntax"⟩], sshdContent := "cfg" }).1.success = false ∧
    (sshExecute (fun c _ _ => (c, true)) "B1"
      { script := [⟨1, "", "bad syntax"⟩], sshdContent := "cfg" }).2.sshdContent = "cfg" := by
  refine ⟨by decide, by decide, ?_⟩
  have h := C3_ssh_validation_guard (fun c _ _ => (c, true)) "B1" "cfg"
    [⟨1, "", "bad syntax"⟩] (by decide) (by decide)
  exact ⟨h.1, h.2.1⟩

/-- Claim C4: in `SSHRemediation.execute`, after a validated edit,
(i) if the daemon restart fails the original configuration text is
restored byte for byte, a second restart is attempted (the systemctl
restart command is executed exactly twice), and a failure outcome is
returned; (ii) if the restart succeeds, the success outcome's detail
lines list exactly the settings that were changed (followed by the
restart confirmation), and the modified text stays in place. -/
theorem C4_ssh_restart_rollback :
    (∀ (fix : String → String → String → String × Bool) (bid content : String)
       (c0 c1 c2 : CmdResult) (rest : List CmdResult),
      (applySettings fix content).2 ≠ [] → c0.rc = 0 → c1.rc ≠ 0 → c2.rc ≠ 0 →
      (sshExecute fix bid
        { script := c0 :: c1 :: c2 :: rest, sshdContent := content }).1.success = false ∧
      (sshExecute fix bid
        { script := c0 :: c1 :: c2 :: rest, sshdContent := content }).2.sshdContent = content ∧
      (sshExecute fix bid
        { script := c0 :: c1 :: c2 :: rest, sshdContent := content }).2.trace.count restartCmd1
        = 2) ∧
    (∀ (fix : String → String → String → String × Bool) (bid content : String)
       (c0 c1 : CmdResult) (rest : List CmdResult),
      (applySettings fix content).2 ≠ [] → c0.rc = 0 → c1.rc = 0 →
      (sshExecute fix bid
        { script := c0 :: c1 :: rest, sshdContent := content }).1.success = true ∧
      (sshExecute fix bid
        { script := c0 :: c1 :: rest, sshdContent := content }).1.details =
        (applySettings fix content).2 ++ ["", "SSH service restarted successfully"] ∧
      (sshExecute fix bid
        { script := c0 :: c1 :: rest, sshdContent := content }).2.sshdContent =
        (applySettings fix content).1) := by
  constructor
  · intro fix bid content c0 c1 c2 rest hfix h0 h1 h2
    rcases hA : applySettings fix content with ⟨nc, fsL⟩
    have hfsL : fsL ≠ [] := by rw [hA] at hfix; exact hfix
    have key : sshExecute fix bid { script := c0 :: c1 :: c2 :: rest, sshdContent := content } =
        (mkFailure "Fix SSH config"
          ("SSH restart failed, rolled back: " ++
            (if c2.err = "" then "Failed to restart SSH" else c2.err)) fsL,
         (restartSSH
           { script := rest, trace := ["sshd -t", restartCmd1, restartCmd2],
             sshdExists := true, sshdContent := content, backups := [content] }).2) := by
      simp [sshExecute, restartSSH, execCmd, hA, hfsL, h0, h1, h2]
    refine ⟨by rw [key]; rfl, ?_, ?_⟩
    · rw [key]
      simp [restartSSH_sshdContent]
    · rw [key]
      obtain ⟨ext, hext, hnotin⟩ := restartSSH_trace
        { script := rest, trace := ["sshd -t", restartCmd1, restartCmd2],
          sshdExists := true, sshdContent := content, backups := [content] }
      rw [hext]
      simp only [List.count_append, List.count_cons_self]
      rw [List.count_eq_zero.mpr hnotin]
      decide
  · intro fix bid content c0 c1 rest hfix h0 h1
    rcases hA : applySettings fix content with ⟨nc, fsL⟩
    have hfsL : fsL ≠ [] := by rw [hA] at hfix; exact hfix
    simp [sshExecute, restartSSH, execCmd, hA, hfsL, h0, h1, mkSuccess]

/-- Witness for C4: a concrete failed-restart run (validator passes,
both restart commands fail) and a concrete successful run. -/
theorem C4_ssh_restart_rollback_witness :
    ((applySettings (fun c _ _ => (c, true)) "cfg").2 ≠ [] ∧
     (⟨0, "", ""⟩ : CmdResult).rc = 0 ∧ (⟨1, "", "down"⟩ : CmdResult).rc ≠ 0 ∧
     (sshExecute (fun c _ _ => (c, true)) "B1"
       { script := [⟨0, "", ""⟩, ⟨1, "", "down"⟩, ⟨1, "", "down"⟩],
         sshdContent := "cfg" }).1.success = false ∧
     (sshExecute (fun c _ _ => (c, true)) "B1"
       { script := [⟨0, "", ""⟩, ⟨1, "", "down"⟩, ⟨1, "", "down"⟩],
         sshdContent := "cfg" }).2.sshdContent = "cfg" ∧
     (sshExecute (fun c _ _ => (c, true)) "B1"
       { script := [⟨0, "", ""⟩, ⟨1, "", "down"⟩, ⟨1, "", "down"⟩],
         sshdContent := "cfg" }).2.trace.count restartCmd1 = 2) ∧
    ((sshExecute (fun c _ _ => (c, true)) "B1"
       { script := [⟨0, "", ""⟩, ⟨0, "", ""⟩], sshdContent := "cfg" }).1.success = true ∧
     (sshExecute (fun c _ _ => (c, true)) "B1"
       { script := [⟨0, "", ""⟩, ⟨0, "", ""⟩], sshdContent := "cfg" }).1.details =
       (applySettings (fun c _ _ => (c, true)) "cfg").2 ++
         ["", "SSH service restarted successfully"]) := by
  constructor
  · have h := C4_ssh_restart_rollback.1 (fun c _ _ => (c, true)) "B1" "cfg"
      ⟨0, "", ""⟩ ⟨1, "", "down"⟩ ⟨1, "", "down"⟩ [] (by decide) (by decide) (by decide) (by decide)
    exact ⟨by decide, by decide, by decide, h.1, h.2.1, h.2.2⟩
  · have h := C4_ssh_restart_rollback.2 (fun c _ _ => (c, true)) "B1" "cfg"
      ⟨0, "", ""⟩ ⟨0, "", ""⟩ [] (by decide) (by decide) (by decide)
    exact ⟨h.1, h.2.1⟩

theorem processLoop_alerts_route (cfg : RemConfig)
    (oracle : CheckResult → Except String RemediationResult) :
    ∀ (results : List CheckResult) (r : CheckResult),
      r ∈ (processLoop cfg oracle results).2 →
      routeOf cfg oracle r = .alert ∧ r ∈ results := by
  intro results
  induction results with
  | nil => intro r hr; simp [processLoop] at hr
  | cons x rest ih =>
    intro r hr
    rcases hx : routeOf cfg oracle x with _ | fr | _ <;>
      simp only [processLoop, hx] at hr
    · exact ⟨(ih r hr).1, List.mem_cons_of_mem _ (ih r hr).2⟩
    · exact ⟨(ih r hr).1, List.mem_cons_of_mem _ (ih r hr).2⟩
    · rcases List.mem_cons.mp hr with h | h
      · exact ⟨h ▸ hx, h ▸ List.mem_cons_self _ _⟩
      · exact ⟨(ih r h).1, List.mem_cons_of_mem _ (ih r h).2⟩

theorem processLoop_fixed_mem (cfg : RemConfig)
    (oracle : CheckResult → Except String RemediationResult) :
    ∀ (results : List CheckResult) (r : CheckResult) (fr : RemediationResult),
      r ∈ results → routeOf cfg oracle r = .fixed fr →
      (r, fr) ∈ (processLoop cfg oracle results).1 := by
  intro results
  induction results with
  | nil => intro r fr hr; simp at hr
  | cons x rest ih =>
    intro r fr hr hroute
    rcases List.mem_cons.mp hr with h | h
    · subst h
      simp only [processLoop, hroute]
      exact List.mem_cons_self _ _
    · rcases hx : routeOf cfg oracle x with _ | fr' | _ <;>
        simp only [processLoop, hx]
      · exact ih r fr h hroute
      · exact List.mem_cons_of_mem _ (ih r fr h hroute)
      · exact ih r fr h hroute

/-- Every alert produced by `process_remediation` is a finding whose
remediation did not succeed (shared by claims about exclusion of
auto-fixed findings). -/
theorem alerts_not_successfullyFixed (cfg : RemConfig)
    (oracle : CheckResult → Except String RemediationResult)
    (results : List CheckResult) (r : CheckResult)
    (hr : r ∈ (processRemediation cfg oracle results).2) :
    ¬ successfullyFixed cfg oracle r := by
  intro ⟨hen, fr, hfix⟩
  rw [processRemediation] at hr
  rw [hen] at hr
  simp only [Bool.not_true, Bool.false_eq_true, if_false] at hr
  have := (processLoop_alerts_route cfg oracle results r hr).1
  rw [hfix] at this
  exact Route.noConfusion this

theorem mainExitCode_of_le_ok (alerts : List CheckResult)
    (h : ∀ r ∈ alerts, sevRank r.severity ≤ sevRank .OK) : mainExitCode alerts = 0 := by
  have hc : (alerts.filter fun r => decide (r.severity = .CRITICAL)) = [] := by
    rw [List.filter_eq_nil_iff]
    intro a ha
    intro hcrit
    have := h a ha
    rw [of_decide_eq_true hcrit] at this
    simp [sevRank] at this
  have hw : (alerts.filter fun r => decide (r.severity = .WARNING)) = [] := by
    rw [List.filter_eq_nil_iff]
    intro a ha
    intro hwarn
    have := h a ha
    rw [of_decide_eq_true hwarn] at this
    simp [sevRank] at this
  simp [mainExitCode, hc, hw]

theorem mainExitCode_of_warning (alerts : List CheckResult)
    (hex : ∃ r ∈ alerts, r.severity = .WARNING)
    (h : ∀ r ∈ alerts, sevRank r.severity ≤ sevRank .WARNING) : mainExitCode alerts = 1 := by
  have hc : (alerts.filter fun r => decide (r.severity = .CRITICAL)) = [] := by
    rw [List.filter_eq_nil_iff]
    intro a ha hcrit
    have := h a ha
    rw [of_decide_eq_true hcrit] at this
    simp [sevRank] at this
  obtain ⟨r, hr, hsev⟩ := hex
  have hmem : r ∈ alerts.filter fun r => decide (r.severity = .WARNING) :=
    List.mem_filter.mpr ⟨hr, decide_eq_true hsev⟩
  have hpos := List.length_pos_of_mem hmem
  simp only [mainExitCode, hc, List.length_nil, gt_iff_lt, lt_self_iff_false, if_false]
  rw [if_pos hpos]

theorem mainExitCode_of_critical (alerts : List CheckResult)
    (hex : ∃ r ∈ alerts, r.severity = .CRITICAL) : mainExitCode alerts = 2 := by
  obtain ⟨r, hr, hsev⟩ := hex
  have hmem : r ∈ alerts.filter fun r => decide (r.severity = .CRITICAL) :=
    List.mem_filter.mpr ⟨hr, decide_eq_true hsev⟩
  have hpos := List.length_pos_of_mem hmem
  simp only [mainExitCode]
  rw [if_pos hpos]

/-- Claim C2: the process exit status is computed from the severities of
the non-auto-fixed alerts only — a finding whose remediation succeeded
never appears among the alerts — and over those alerts the code is 0
when none exceed OK, 1 when the highest severity is WARNING, and 2 when
the highest is CRITICAL. -/
theorem C2_exit_status (cfg : RemConfig)
    (oracle : CheckResult → Except String RemediationResult)
    (results : List CheckResult) :
    (∀ r ∈ (processRemediation cfg oracle results).2, ¬ successfullyFixed cfg oracle r) ∧
    ((∀ r ∈ (processRemediation cfg oracle results).2, sevRank r.severity ≤ sevRank .OK) →
      mainExitCode (processRemediation cfg oracle results).2 = 0) ∧
    (((∃ r ∈ (processRemediation cfg oracle results).2, r.severity = .WARNING) ∧
      (∀ r ∈ (processRemediation cfg oracle results).2, sevRank r.severity ≤ sevRank .WARNING)) →
      mainExitCode (processRemediation cfg oracle results).2 = 1) ∧
    ((∃ r ∈ (processRemediation cfg oracle results).2, r.severity = .CRITICAL) →
      mainExitCode (processRemediation cfg oracle results).2 = 2) := by
  refine ⟨fun r hr => alerts_not_successfullyFixed cfg oracle results r hr, ?_, ?_, ?_⟩
  · exact mainExitCode_of_le_ok _
  · exact fun h => mainExitCode_of_warning _ h.1 h.2
  · exact mainExitCode_of_critical _

/-- Witness for C2 at concrete runs: all-OK gives exit 0, OK+WARNING
gives exit 1, OK+WARNING+CRITICAL gives exit 2, and an alerted finding
was not successfully fixed. -/
theorem C2_exit_status_witness :
    mainExitCode (processRemediation ⟨true, []⟩ (fun _ => .error "x")
      [{ check_name := "a", severity := .OK, message := "" }]).2 = 0 ∧
    mainExitCode (processRemediation ⟨true, []⟩ (fun _ => .error "x")
      [{ check_name := "a", severity := .OK, message := "" },
       { check_name := "b", severity := .WARNING, message := "" }]).2 = 1 ∧
    mainExitCode (processRemediation ⟨true, []⟩ (fun _ => .error "x")
      [{ check_name := "a", severity := .OK, message := "" },
       { check_name := "b", severity := .WARNING, message := "" },
       { check_name := "c", severity := .CRITICAL, message := "" }]).2 = 2 ∧
    ¬ successfullyFixed ⟨true, []⟩ (fun _ => .error "x")
      { check_name := "b", severity := .WARNING, message := "" } := by
  refine ⟨?_, ?_, ?_, ?_⟩
  · exact (C2_exit_status ⟨true, []⟩ (fun _ => .error "x") _).2.1 (by decide)
  · exact (C2_exit_status ⟨true, []⟩ (fun _ => .error "x") _).2.2.1 ⟨by decide, by decide⟩
  · exact (C2_exit_status ⟨true, []⟩ (fun _ => .error "x") _).2.2.2 (by decide)
  · exact (C2_exit_status ⟨true, []⟩ (fun _ => .error "x")
      [{ check_name := "a", severity := .OK, message := "" },
       { check_name := "b", severity := .WARNING, message := "" }]).1
      { check_name := "b", severity := .WARNING, message := "" } (by decide)

theorem chmod600_modeOf_none {fs : PermFS} {q p : String}
    (h : fs.modeOf p = none) : (fs.chmod600 q).modeOf p = none := by
  unfold PermFS.modeOf PermFS.chmod600 at *
  rw [Option.map_eq_none'] at h ⊢
  rw [List.find?_eq_none] at h ⊢
  intro x hx
  obtain ⟨e, he, rfl⟩ := List.mem_map.mp hx
  have hkey : (if e.1 = q then (e.1, "600") else e).1 = e.1 := by split <;> rfl
  simp only [hkey]
  exact h e he

/-- Claim C10: (i) when the permission fix succeeds on at least one
file and fails on another, the outcome's success flag is still true and
the failure appears only among the detail lines (no error field); (ii)
a finding whose handler reported success is routed to the auto-fixed
list and never appears among the outstanding alerts. -/
theorem C10_partial_success_routing :
    (∀ (fs : PermFS) (changes : List Change) (sid p1 p2 m : String),
      fs.modeOf p1 = some m → fs.modeOf p2 = none →
      (fixEnvPermissions [p1, p2] sid fs changes).1.success = true ∧
      (fixEnvPermissions [p1, p2] sid fs changes).1.error = none ∧
      (fixEnvPermissions [p1, p2] sid fs changes).1.details =
        [p1 ++ ": " ++ m ++ " -> 600", "ERRORS: " ++ ("File not found: " ++ p2)]) ∧
    (∀ (cfg : RemConfig) (oracle : CheckResult → Except String RemediationResult)
       (results : List CheckResult) (r : CheckResult) (fr : RemediationResult),
      cfg.enabled = true → r ∈ results → routeOf cfg oracle r = .fixed fr →
      (r, fr) ∈ (processRemediation cfg oracle results).1 ∧
      r ∉ (processRemediation cfg oracle results).2) := by
  constructor
  · intro fs changes sid p1 p2 m h1 h2
    have h2' : (fs.chmod600 p1).modeOf p2 = none := chmod600_modeOf_none h2
    refine ⟨?_, ?_, ?_⟩ <;>
      simp [fixEnvPermissions, fixEnvStep, recordPermissionChange, h1, h2']
  · intro cfg oracle results r fr hen hr hroute
    constructor
    · rw [processRemediation, hen]
      simp only [Bool.not_true, Bool.false_eq_true, if_false]
      exact processLoop_fixed_mem cfg oracle results r fr hr hroute
    · intro hmem
      have := alerts_not_successfullyFixed cfg oracle results r hmem
      exact this ⟨hen, fr, hroute⟩

/-- Witness for C10: one fixable file plus one missing file still gives
a success outcome, and a successfully fixed finding is routed to the
auto-fixed list, not to the alerts. -/
theorem C10_partial_success_routing_witness :
    ((fixEnvPermissions ["/a/.env", "/b/.env"] "S1" ⟨[("/a/.env", "644")]⟩ []).1.success = true ∧
     (fixEnvPermissions ["/a/.env", "/b/.env"] "S1" ⟨[("/a/.env", "644")]⟩ []).1.details =
       ["/a/.env" ++ ": " ++ "644" ++ " -> 600", "ERRORS: " ++ ("File not found: " ++ "/b/.env")]) ∧
    (({ check_name := "File Permissions", severity := .WARNING, message := "insecure",
        auto_fixable := true, fix_action := some "fix_env_permissions" },
      mkSuccess "done" []) ∈
        (processRemediation ⟨true, ["file_permissions"]⟩ (fun _ => .ok (mkSuccess "done" []))
          [{ check_name := "File Permissions", severity := .WARNING, message := "insecure",
             auto_fixable := true, fix_action := some "fix_env_permissions" }]).1 ∧
     ({ check_name := "File Permissions", severity := .WARNING, message := "insecure",
        auto_fixable := true, fix_action := some "fix_env_permissions" } : CheckResult) ∉
        (processRemediation ⟨true, ["file_permissions"]⟩ (fun _ => .ok (mkSuccess "done" []))
          [{ check_name := "File Permissions", severity := .WARNING, message := "insecure",
             auto_fixable := true, fix_action := some "fix_env_permissions" }]).2) := by
  constructor
  · have h := C10_partial_success_routing.1 ⟨[("/a/.env", "644")]⟩ [] "S1"
      "/a/.env" "/b/.env" "644" (by decide) (by decide)
    exact ⟨h.1, h.2.2⟩
  · exact C10_partial_success_routing.2 ⟨true, ["file_permissions"]⟩
      (fun _ => .ok (mkSuccess "done" [])) _ _ (mkSuccess "done" []) rfl
      (List.mem_singleton.mpr rfl) (by decide)

/-- Counterexample to C8: running the permission fix on a file already
at mode 600 yields a success outcome that reports one change
(`600 -> 600`) and appends one new permission change record to the
session — not zero changes and no record as claimed. -/
theorem C8_idempotence_cex :
    (fixEnvPermissions ["/opt/app/.env"] "S1" ⟨[("/opt/app/.env", "600")]⟩ []).1.success = true ∧
    (fixEnvPermissions ["/opt/app/.env"] "S1" ⟨[("/opt/app/.env", "600")]⟩ []).2.2 =
      [Change.permission "/opt/app/.env" "600" "600"] ∧
    (fixEnvPermissions ["/opt/app/.env"] "S1" ⟨[("/opt/app/.env", "600")]⟩ []).1.details =
      ["/opt/app/.env: 600 -> 600"] := by
  decide

theorem chmod600_find (l : List (String × String)) (p : String) :
    ((l.map fun e => if e.1 = p then (e.1, "600") else e).find? fun e => decide (e.1 = p)) =
      ((l.find? fun e => decide (e.1 = p)).map fun e => (e.1, "600")) := by
  induction l with
  | nil => rfl
  | cons e rest ih =>
    by_cases he : e.1 = p
    · simp [List.find?_cons, he]
    · simp [List.find?_cons, he, ih]

/-- Amended C8: the run on a file already at mode 600 is idempotent on
the filesystem (success outcome, mode still 600) but not on the
journal: each run reports the no-op change `600 -> 600` and appends one
more permission change record. -/
theorem C8_permission_fix_journal (fs : PermFS) (changes : List Change) (sid p : String)
    (h : fs.modeOf p = some "600") :
    (fixEnvPermissions [p] sid fs changes).1.success = true ∧
    (fixEnvPermissions [p] sid fs changes).2.1.modeOf p = some "600" ∧
    (fixEnvPermissions [p] sid fs changes).2.2 =
      changes ++ [Change.permission p "600" "600"] ∧
    (fixEnvPermissions [p] sid fs changes).1.details = [p ++ ": " ++ "600" ++ " -> 600"] := by
  have hchmod : (fs.chmod600 p).modeOf p = some "600" := by
    unfold PermFS.modeOf PermFS.chmod600
    unfold PermFS.modeOf at h
    rw [chmod600_find]
    rcases hf : fs.modes.find? fun e => decide (e.1 = p) with _ | e
    · rw [hf] at h; simp at h
    · simp
      exact ⟨e.1, e.2, by rw [hf]⟩
  refine ⟨?_, ?_, ?_, ?_⟩ <;>
    simp [fixEnvPermissions, fixEnvStep, recordPermissionChange, mkSuccess, h, hchmod]

/-- Witness for the amended C8 at a concrete filesystem. -/
theorem C8_permission_fix_journal_witness :
    (⟨[("/opt/app/.env", "600")]⟩ : PermFS).modeOf "/opt/app/.env" = some "600" ∧
    (fixEnvPermissions ["/opt/app/.env"] "S2" ⟨[("/opt/app/.env", "600")]⟩
      [Change.command "c" "d"]).2.2 =
      [Change.command "c" "d"] ++ [Change.permission "/opt/app/.env" "600" "600"] := by
  refine ⟨by decide, ?_⟩
  exact (C8_permission_fix_journal ⟨[("/opt/app/.env", "600")]⟩ [Change.command "c" "d"]
    "S2" "/opt/app/.env" (by decide)).2.2.1

/-- Counterexample to C7: rolling back a session whose only record is a
`command` record (a record type with no safe automated undo, per the
data-model invariants) produces no manual-review note at all — the
record is silently skipped: no rolled-back entry, no error. -/
theorem C7_manual_note_cex :
    (rollbackSession [("S1", [Change.command "ufw --force enable" "Enabled UFW firewall"])]
      ⟨[]⟩ "S1").1.success = true ∧
    (rollbackSession [("S1", [Change.command "ufw --force enable" "Enabled UFW firewall"])]
      ⟨[]⟩ "S1").1.rolled_back = [] ∧
    (rollbackSession [("S1", [Change.command "ufw --force enable" "Enabled UFW firewall"])]
      ⟨[]⟩ "S1").1.errors = [] := by
  decide

/-- `ufw` records and only `ufw` records. -/
def isUfwChange : Change → Bool
  | .ufw _ _ => true
  | _ => false

theorem count_append_one_ne {x y : String} (rb : List String) (h : x ≠ y) :
    (rb ++ [x]).count y = rb.count y := by
  simp [List.count_append, List.count_cons, h]

theorem count_append_one_self (x : String) (rb : List String) :
    (rb ++ [x]).count x = rb.count x + 1 := by
  simp [List.count_append, List.count_cons]

theorem restored_perm_ne_note (p : String) :
    "Restored permissions on " ++ p ≠ ufwManualNote := by
  intro h
  have hd := congrArg String.data h
  rw [strDataAppend] at hd
  have h1 : ("Restored permissions on ").data =
      'R' :: ("estored permissions on ").data := rfl
  have h2 : ufwManualNote.data =
      'U' :: ("FW change logged - manual review recommended").data := rfl
  rw [h1, h2] at hd
  simp at hd

theorem restored_file_ne_note (p : String) :
    "Restored file " ++ p ≠ ufwManualNote := by
  intro h
  have hd := congrArg String.data h
  rw [strDataAppend] at hd
  have h1 : ("Restored file ").data = 'R' :: ("estored file ").data := rfl
  have h2 : ufwManualNote.data =
      'U' :: ("FW change logged - manual review recommended").data := rfl
  rw [h1, h2] at hd
  simp at hd

theorem rollbackFold_note_count (l : List Change) :
    ∀ (fs : FS) (rb errs : List String),
      (l.foldl rollbackStep (fs, rb, errs)).2.1.count ufwManualNote =
        rb.count ufwManualNote + l.countP isUfwChange := by
  induction l with
  | nil => intro fs rb errs; simp
  | cons ch rest ih =>
    intro fs rb errs
    rcases ch with ⟨p, ob⟩ | ⟨p, om, nm⟩ | ⟨a, b⟩ | ⟨c, d⟩
    · rcases ob with _ | b
      · simp only [List.foldl_cons, rollbackStep, ih]
        simp [List.countP_cons, isUfwChange]
      · by_cases hb : ((fs.find b).isSome : Prop)
        · simp only [List.foldl_cons, rollbackStep, if_pos hb, ih]
          rw [count_append_one_ne rb (restored_file_ne_note p)]
          simp [List.countP_cons, isUfwChange]
        · simp only [List.foldl_cons, rollbackStep, if_neg hb, ih]
          simp [List.countP_cons, isUfwChange]
    · rcases hoct : parseOctal om with _ | m
      · simp only [List.foldl_cons, rollbackStep, hoct, ih]
        simp [List.countP_cons, isUfwChange]
      · by_cases hp : ((fs.find p).isSome : Prop)
        · simp only [List.foldl_cons, rollbackStep, hoct, if_pos hp, ih]
          rw [count_append_one_ne rb (restored_perm_ne_note p)]
          simp [List.countP_cons, isUfwChange]
        · simp only [List.foldl_cons, rollbackStep, hoct, if_neg hp, ih]
          simp [List.countP_cons, isUfwChange]
    · simp only [List.foldl_cons, rollbackStep, ih]
      rw [count_append_one_self]
      simp [List.countP_cons, isUfwChange]
      omega
    · simp only [List.foldl_cons, rollbackStep, ih]
      simp [List.countP_cons, isUfwChange]

theorem rollbackFold_commands (l : List Change)
    (h : ∀ c ∈ l, ∃ cmd d, c = .command cmd d) :
    ∀ (fs : FS) (rb errs : List String),
      l.foldl rollbackStep (fs, rb, errs) = (fs, rb, errs) := by
  induction l with
  | nil => intro fs rb errs; rfl
  | cons ch rest ih =>
    intro fs rb errs
    obtain ⟨cmd, d, rfl⟩ := h ch (List.mem_cons_self _ _)
    simp only [List.foldl_cons, rollbackStep]
    exact ih (fun c hc => h c (List.mem_cons_of_mem _ hc)) fs rb errs

/-- Amended C7: during rollback, every firewall-rule (`ufw`) record
produces exactly one explicit manual-review note in the rollback
result; `command` records — the other record type with no safe
automated undo — are silently skipped: a session holding only command
records rolls back "successfully" with no note and no error. -/
theorem C7_rollback_manual_notes (store : SessionStore) (fs : FS) (sid : String)
    (changes : List Change)
    (hfound : (store.find? fun e => e.1 = sid).map Prod.snd = some changes) :
    (rollbackSession store fs sid).1.rolled_back.count ufwManualNote =
      changes.countP isUfwChange ∧
    ((∀ c ∈ changes, ∃ cmd d, c = .command cmd d) →
      (rollbackSession store fs sid).1.success = true ∧
      (rollbackSession store fs sid).1.rolled_back = [] ∧
      (rollbackSession store fs sid).1.errors = []) := by
  have hnote := rollbackFold_note_count changes.reverse fs [] []
  rcases hfold : changes.reverse.foldl rollbackStep (fs, [], []) with ⟨fs1, rb, errs⟩
  rw [hfold] at hnote
  simp only [rollbackSession, hfound, hfold]
  constructor
  · simpa [List.countP_reverse] using hnote
  · intro hall
    have hall' : ∀ c ∈ changes.reverse, ∃ cmd d, c = .command cmd d :=
      fun c hc => hall c (List.mem_reverse.mp hc)
    have hid := rollbackFold_commands changes.reverse hall' fs [] []
    rw [hfold] at hid
    obtain ⟨h1, h2, h3⟩ : fs1 = fs ∧ rb = [] ∧ errs = [] := by
      simpa [Prod.ext_iff] using hid
    subst h2
    subst h3
    simp

/-- Witness for the amended C7: a session with one `ufw` and one
`command` record yields exactly one manual-review note; a session with
only a `command` record reports success with nothing rolled back. -/
theorem C7_rollback_manual_notes_witness :
    (rollbackSession
      [("S1", [Change.ufw "enable_ufw" "b.txt", Change.command "c" "d"])]
      ⟨[]⟩ "S1").1.rolled_back.count ufwManualNote =
      [Change.ufw "enable_ufw" "b.txt", Change.command "c" "d"].countP isUfwChange ∧
    (rollbackSession [("S2", [Change.command "c" "d"])] ⟨[]⟩ "S2").1.success = true := by
  constructor
  · exact (C7_rollback_manual_notes
      [("S1", [Change.ufw "enable_ufw" "b.txt", Change.command "c" "d"])] ⟨[]⟩ "S1"
      [Change.ufw "enable_ufw" "b.txt", Change.command "c" "d"] (by decide)).1
  · exact ((C7_rollback_manual_notes [("S2", [Change.command "c" "d"])] ⟨[]⟩ "S2"
      [Change.command "c" "d"] (by decide)).2
      (fun c hc => ⟨"c", "d", by rw [List.mem_singleton.mp hc]⟩)).1

theorem evictLoop_eq (maxB : Nat) :
    ∀ (sessions files : List String),
      evictLoop maxB sessions files =
        files.filter fun f =>
          !((sessions.take (sessions.length - maxB)).any fun s =>
            f == s || strStarts f (backupArtifactPre (sessionIdOf s))) := by
  intro sessions
  induction sessions with
  | nil =>
    intro files
    simp [evictLoop]
  | cons o rest ih =>
    intro files
    by_cases h : rest.length + 1 > maxB
    · rw [show evictLoop maxB (o :: rest) files =
          evictLoop maxB rest (files.filter fun f =>
            !(f == o || strStarts f (backupArtifactPre (sessionIdOf o)))) from by
        simp only [evictLoop, if_pos h]]
      rw [ih, List.filter_filter]
      have hlen : (o :: rest).length - maxB = (rest.length - maxB) + 1 := by
        simp only [List.length_cons]
        omega
      rw [hlen, List.take_succ_cons]
      apply List.filter_congr
      intro f _
      simp only [List.any_cons, Bool.not_or]
      rw [Bool.and_comm]
    · rw [show evictLoop maxB (o :: rest) files = files from by
        simp only [evictLoop, if_neg h]]
      have hlen : (o :: rest).length - maxB = 0 := by
        simp only [List.length_cons]
        omega
      rw [hlen]
      simp

theorem strStarts_false_of_head_ne {f p q : String} {a b : Char} {pl ql : List Char}
    (hp : p.data = a :: pl) (hq : q.data = b :: ql) (hab : a ≠ b)
    (h1 : strStarts f p = true) : strStarts f q = false := by
  by_contra h
  have h2 : strStarts f q = true := by
    revert h
    cases strStarts f q <;> simp
  exact hab (strStarts_head_eq hp hq h1 h2)

theorem backupArtifactPre_data (sid : String) :
    (backupArtifactPre sid).data = 'b' :: (("ackup_".data ++ sid.data) ++ "_".data) := by
  unfold backupArtifactPre
  rw [strDataAppend, strDataAppend]
  rfl

theorem isSessionFile_starts {s : String} (h : isSessionFile s = true) :
    strStarts s "session_" = true := by
  unfold isSessionFile at h
  simp only [Bool.and_eq_true] at h
  exact h.1

/-- Counterexample to C6: with three stored sessions and a limit of
two, the oldest session file is evicted, but the ufw backup artifact
that `record_ufw_change` wrote for that very session identifier
survives the cleanup — an orphaned backup file. -/
theorem C6_retention_cex :
    "session_20250101_000000.json" ∉
      cleanupOldBackups
        ["session_20250101_000000.json", "session_20250102_000000.json",
         "session_20250103_000000.json", ufwBackupFileName "20250101_000000"] 2 ∧
    ufwBackupFileName "20250101_000000" ∈
      cleanupOldBackups
        ["session_20250101_000000.json", "session_20250102_000000.json",
         "session_20250103_000000.json", ufwBackupFileName "20250101_000000"] 2 ∧
    sessionIdOf "session_20250101_000000.json" = "20250101_000000" := by
  refine ⟨by decide, by decide, by decide⟩

/-- Amended C6: when the stored sessions exceed the configured maximum,
the oldest session files beyond the limit are evicted together with
every backup artifact named `backup_<session_id>_*`; session files
within the limit survive, but backup artifacts named
`ufw_backup_<session_id>.txt` (written by `record_ufw_change`) are
never removed and are orphaned once their session is evicted. -/
theorem C6_retention (files : List String) (maxB : Nat) :
    (∀ s ∈ evictedSessions files maxB, s ∉ cleanupOldBackups files maxB) ∧
    (∀ s ∈ evictedSessions files maxB, ∀ f : String,
      strStarts f (backupArtifactPre (sessionIdOf s)) = true →
      f ∉ cleanupOldBackups files maxB) ∧
    (∀ f ∈ files, strStarts f "ufw_backup_" = true → f ∈ cleanupOldBackups files maxB) ∧
    (∀ f ∈ files, isSessionFile f = true → f ∉ evictedSessions files maxB →
      f ∈ cleanupOldBackups files maxB) := by
  have hres : cleanupOldBackups files maxB =
      files.filter fun f =>
        !((evictedSessions files maxB).any fun s =>
          f == s || strStarts f (backupArtifactPre (sessionIdOf s))) :=
    evictLoop_eq maxB (sortStrs (files.filter isSessionFile)) files
  have hsess : ∀ x ∈ evictedSessions files maxB, isSessionFile x = true := by
    intro x hx
    have hmem : x ∈ sortStrs (files.filter isSessionFile) := List.take_subset _ _ hx
    exact (List.mem_filter.mp (mem_sortStrs.mp hmem)).2
  refine ⟨?_, ?_, ?_, ?_⟩
  · intro s hs hmem
    rw [hres] at hmem
    have hp := (List.mem_filter.mp hmem).2
    rw [Bool.not_eq_true', List.any_eq_false] at hp
    have := hp s hs
    simp at this
  · intro s hs f hpre hmem
    rw [hres] at hmem
    have hp := (List.mem_filter.mp hmem).2
    rw [Bool.not_eq_true', List.any_eq_false] at hp
    have := hp s hs
    rw [hpre] at this
    simp at this
  · intro f hf hufw
    rw [hres]
    refine List.mem_filter.mpr ⟨hf, ?_⟩
    rw [Bool.not_eq_true', List.any_eq_false]
    intro x hx
    have hxs : strStarts x "session_" = true := isSessionFile_starts (hsess x hx)
    have hne : f ≠ x := by
      intro hfx
      have : strStarts f "session_" = false :=
        strStarts_false_of_head_ne (p := "ufw_backup_") (q := "session_")
          rfl rfl (by decide) hufw
      rw [hfx] at this
      rw [this] at hxs
      exact Bool.false_ne_true hxs
    have hnb : strStarts f (backupArtifactPre (sessionIdOf x)) = false :=
      strStarts_false_of_head_ne (p := "ufw_backup_")
        rfl (backupArtifactPre_data (sessionIdOf x)) (by decide) hufw
    simp [hne, hnb]
  · intro f hf hsf hnev
    rw [hres]
    refine List.mem_filter.mpr ⟨hf, ?_⟩
    rw [Bool.not_eq_true', List.any_eq_false]
    intro x hx
    have hne : f ≠ x := fun hfx => hnev (hfx ▸ hx)
    have hnb : strStarts f (backupArtifactPre (sessionIdOf x)) = false :=
      strStarts_false_of_head_ne (p := "session_")
        rfl (backupArtifactPre_data (sessionIdOf x)) (by decide)
        (isSessionFile_starts hsf)
    simp [hne, hnb]

/-- Witness for the amended C6 at the concrete three-session layout:
the oldest session is gone, the two newest survive, and the orphaned
ufw backup artifact of the evicted session survives too. -/
theorem C6_retention_witness :
    "session_20250101_000000.json" ∈
      evictedSessions
        ["session_20250101_000000.json", "session_20250102_000000.json",
         "session_20250103_000000.json", ufwBackupFileName "20250101_000000"] 2 ∧
    "session_20250101_000000.json" ∉
      cleanupOldBackups
        ["session_20250101_000000.json", "session_20250102_000000.json",
         "session_20250103_000000.json", ufwBackupFileName "20250101_000000"] 2 ∧
    ufwBackupFileName "20250101_000000" ∈
      cleanupOldBackups
        ["session_20250101_000000.json", "session_20250102_000000.json",
         "session_20250103_000000.json", ufwBackupFileName "20250101_000000"] 2 ∧
    "session_20250103_000000.json" ∈
      cleanupOldBackups
        ["session_20250101_000000.json", "session_20250102_000000.json",
         "session_20250103_000000.json", ufwBackupFileName "20250101_000000"] 2 := by
  refine ⟨by decide, ?_, ?_, ?_⟩
  · exact (C6_retention
      ["session_20250101_000000.json", "session_20250102_000000.json",
       "session_20250103_000000.json", ufwBackupFileName "20250101_000000"] 2).1
      "session_20250101_000000.json" (by decide)
  · exact (C6_retention
      ["session_20250101_000000.json", "session_20250102_000000.json",
       "session_20250103_000000.json", ufwBackupFileName "20250101_000000"] 2).2.2.1
      (ufwBackupFileName "20250101_000000") (by decide) (by decide)
  · exact (C6_retention
      ["session_20250101_000000.json", "session_20250102_000000.json",
       "session_20250103_000000.json", ufwBackupFileName "20250101_000000"] 2).2.2.2
      "session_20250103_000000.json" (by decide) (by decide) (by decide)

/-- Claim C9: the `--rollback` command exits 0 exactly when the
rollback succeeded and 1 on failure — in particular when the named
session is not found — and the `--list-sessions` command exits 0; both
exit codes stay in the range 0..1, independent of the 0/1/2 severity
scheme of a scan.  (`list_sessions` swallows listing errors internally,
so the `--list-sessions` branch cannot fail at the process level.) -/
theorem C9_cli_exit_codes :
    (∀ (store : SessionStore) (fs : FS) (sid : String),
      ((rollbackSession store fs sid).1.success = true → mainRollbackExit store fs sid = 0) ∧
      ((rollbackSession store fs sid).1.success = false → mainRollbackExit store fs sid = 1) ∧
      ((store.find? fun e => e.1 = sid) = none → mainRollbackExit store fs sid = 1) ∧
      mainRollbackExit store fs sid ≤ 1) ∧
    (∀ (parse : String → Option SessionMeta) (dirFiles : List String),
      mainListSessionsExit parse dirFiles = 0) := by
  constructor
  · intro store fs sid
    refine ⟨?_, ?_, ?_, ?_⟩
    · intro h
      simp [mainRollbackExit, h]
    · intro h
      simp [mainRollbackExit, h]
    · intro h
      have hmap : ((store.find? fun e => e.1 = sid).map Prod.snd) = none := by
        rw [h]
        rfl
      simp [mainRollbackExit, rollbackSession, hmap]
    · by_cases h : (rollbackSession store fs sid).1.success = true <;>
        simp [mainRollbackExit, h]
  · intro parse dirFiles
    rfl

/-- Witness for C9: a found session with no changes rolls back with
exit 0, an unknown session identifier exits 1, and `--list-sessions`
exits 0. -/
theorem C9_cli_exit_codes_witness :
    mainRollbackExit [("S1", [])] ⟨[]⟩ "S1" = 0 ∧
    mainRollbackExit [] ⟨[]⟩ "missing" = 1 ∧
    mainListSessionsExit (fun _ => none) ["session_a.json"] = 0 := by
  refine ⟨?_, ?_, ?_⟩
  · exact (C9_cli_exit_codes.1 [("S1", [])] ⟨[]⟩ "S1").1 (by decide)
  · exact (C9_cli_exit_codes.1 [] ⟨[]⟩ "missing").2.2.1 (by decide)
  · exact C9_cli_exit_codes.2 (fun _ => none) ["session_a.json"]

end VpsSec
